import Mathlib

/-!
Verification of the claim-arbitration / interactive-disambiguation protocol of
`Owner.summon` (src/modules/legacy_cmds.py, lines 609-714) against its
specification.

The embedding translates the body of `summon` into a pure Lean function over an
explicit pool state.  A pool instance ("bot") carries its user id, its
readiness flag (`bot_ready`), the resource groups (guilds) it can observe, the
active sessions it holds (`music.players`, a guild-id keyed association list of
players, each recording its `last_channel`), and whether `music.get_best_node()`
would return a node.  A claim request carries the addressed instance, the
target guild, the originating reply channel, the requesting actor, the actor's
voice sub-location (the decorator `check_voice`, outside src/, guarantees the
requester occupies one at request time), a snapshot of the guild's voice
topology (channel id to the ids present in its `voice_states`), and the
verdict of `can_connect` (a permission check, outside src/) per voice channel.

The interactive selection (`SelectBotVoice`, utils/music/interactions, outside
src/) is embedded by its resolution: the `await v.wait()` suspension point is
modelled by passing the resolution of the selection view as an explicit
argument, exactly as the code reads it back (`v.status is None` for the
deadline, `v.status is False` for cancellation, otherwise a choice carrying
`v.bot` and `v.inter`).
-/

namespace MetMusic

/-- An active session held by an instance: `player.last_channel`, the voice
sub-location the player occupies, recorded by its id. -/
structure Player where
  lastChannelId : Nat
deriving DecidableEq

/-- A pool instance (`self.bot.pool.bots` element): user id, `bot_ready` flag,
observable guilds (`b.get_guild` succeeds exactly on these), held sessions
(`b.music.players`), and whether `music.get_best_node()` finds a node. -/
structure Bot where
  userId : Nat
  botReady : Bool
  guilds : List Nat
  players : List (Nat × Player)
  hasNode : Bool
deriving DecidableEq

/-- A claim request, as `summon` reads it from `ctx`: the addressed instance
(`ctx.bot`), the target guild, the reply channel (`ctx.channel`), the actor
(`ctx.author`), the actor's voice sub-location (`ctx.author.voice.channel`,
present by `check_voice`), the guild's voice topology (each channel's
`voice_states` key set), and the verdict of `can_connect` per voice channel. -/
structure Req where
  botUserId : Nat
  guildId : Nat
  channelId : Nat
  authorId : Nat
  authorVoiceCh : Nat
  channels : List (Nat × List Nat)
  canConnect : Nat → Bool

/-- The ids present in a voice channel's `voice_states` (empty for a channel
absent from the snapshot). -/
def channelMembers (channels : List (Nat × List Nat)) (chId : Nat) : List Nat :=
  (channels.lookup chId).getD []

/-- The resolution of the `SelectBotVoice` view when some actor chose an
instance: the chosen instance (`v.bot`), and the interaction `v.inter` it was
chosen through (its author, that author's voice channel at resolution time if
any, and its channel). -/
structure SelChosen where
  chosenUid : Nat
  interAuthorId : Nat
  interAuthorVoiceCh : Option Nat
  interChannelId : Nat
deriving DecidableEq

/-- The resolution of the selection view as `summon` reads it after
`await v.wait()`: `v.status is None` (deadline elapsed), `v.status is False`
(explicit cancel), or a choice. -/
inductive SelResult where
  | timedOut
  | cancelled
  | chosen (c : SelChosen)
deriving DecidableEq

/-- The observable outcome of one `summon` call.  `alreadyInitiated`,
`cannotConnect` and `noNode` are raised `GenericError`s; `timedOutMsg`,
`cancelledMsg` and `notConnectedMsg` are ordinary returns after editing the
prompt message; `started` records the instance that now owns the session, the
actor it was created for, the voice sub-location connected to, and the reply
channel feedback goes through.  `badRequest` is the embedding's totalisation of
an instance id that resolves to no pool member. -/
inductive SummonOutcome where
  | badRequest
  | alreadyInitiated
  | timedOutMsg
  | cancelledMsg
  | notConnectedMsg
  | cannotConnect
  | noNode
  | started (botUserId authorId voiceChId replyChId : Nat)
deriving DecidableEq

/-- Whether an outcome reaches the requester as a raised exception
(`GenericError` / a failed lookup) rather than as an ordinary message. -/
def SummonOutcome.isException : SummonOutcome → Bool
  | .badRequest => true
  | .alreadyInitiated => true
  | .cannotConnect => true
  | .noNode => true
  | _ => false

/-- Registration of a new session: `create_player` followed by
`player.connect(...)` records a player for the guild on the owning instance,
`last_channel` being the connected voice sub-location. -/
def setPlayer (pool : List Bot) (uid gid ch : Nat) : List Bot :=
  pool.map fun b =>
    if b.userId = uid then { b with players := (gid, ⟨ch⟩) :: b.players } else b

/-- The body of the `free_bots` loop (lines 629-644): an instance is kept when
it is `bot_ready`, it observes the target guild, and, when it already holds a
player in that guild, the requesting actor is among the `voice_states` of that
player's `last_channel`. -/
def eligibleBot (req : Req) (b : Bot) : Bool :=
  b.botReady &&
  decide (req.guildId ∈ b.guilds) &&
  (match b.players.lookup req.guildId with
   | none => true
   | some p => decide (req.authorId ∈ channelMembers req.channels p.lastChannelId))

/-- The `free_bots` list (lines 627-644): the pool filtered by `eligibleBot`,
in pool order. -/
def freeBots (pool : List Bot) (req : Req) : List Bot :=
  pool.filter (eligibleBot req)

/-- `can_connect` check, node lookup and session creation (lines 682-693):
`can_connect` raises first, then a missing node raises, otherwise the session
is registered on instance `b` for actor `aid` at voice channel `vc` with reply
channel `rc`. -/
def proceed (pool : List Bot) (b : Bot) (gid aid vc rc : Nat) (cc : Nat → Bool) :
    SummonOutcome × List Bot :=
  if cc vc = true then
    if b.hasNode = true then
      (.started b.userId aid vc rc, setPlayer pool b.userId gid vc)
    else (.noNode, pool)
  else (.cannotConnect, pool)

/-- The `summon` command body (lines 612-693), as a function of the pool state,
the request and the resolution the selection view would produce if consulted.
Line order is preserved: the guard on the addressed instance's own registry
(lines 614-618), the bypass when the addressed instance is already in the
requester's voice channel (line 625), the `free_bots` evaluation, the
interactive selection only when more than one candidate remains (line 646),
the three non-handoff resolutions (lines 660-672), and the handoff /
registration tail (lines 682-693). -/
def summon (pool : List Bot) (req : Req) (sel : SelResult) :
    SummonOutcome × List Bot :=
  match pool.find? (fun b => b.userId == req.botUserId) with
  | none => (.badRequest, pool)
  | some ctxBot =>
    match ctxBot.players.lookup req.guildId with
    | some _ => (.alreadyInitiated, pool)
    | none =>
      if req.botUserId ∈ channelMembers req.channels req.authorVoiceCh then
        proceed pool ctxBot req.guildId req.authorId req.authorVoiceCh req.channelId
          req.canConnect
      else if 1 < (freeBots pool req).length then
        match sel with
        | .timedOut => (.timedOutMsg, pool)
        | .cancelled => (.cancelledMsg, pool)
        | .chosen c =>
          match c.interAuthorVoiceCh with
          | none => (.notConnectedMsg, pool)
          | some vc =>
            match pool.find? (fun b => b.userId == c.chosenUid) with
            | none => (.badRequest, pool)
            | some b2 =>
              proceed pool b2 req.guildId c.interAuthorId vc c.interChannelId
                req.canConnect
      else
        proceed pool ctxBot req.guildId req.authorId req.authorVoiceCh req.channelId
          req.canConnect

/-- Modelled from the spec: the resolution contract of `SelectBotVoice`
(utils/music/interactions, not under src/).  Per the spec, a choice submitted
by any actor other than the original requester is discarded, the prompt lives
in the originating reply channel, and the choice references one of the
candidate instances; hence a `Chosen` resolution carries the original
requester as its author, the originating channel, and a candidate. -/
def SelResolutionOk (req : Req) (cands : List Bot) (c : SelChosen) : Prop :=
  c.interAuthorId = req.authorId ∧ c.interChannelId = req.channelId ∧
  ∃ b ∈ cands, b.userId = c.chosenUid

/-- The number of pool instances holding an active session in guild `gid`. -/
def sessionCount (pool : List Bot) (gid : Nat) : Nat :=
  (pool.filter (fun b => (b.players.lookup gid).isSome)).length

/-! Concrete pool states and requests used by witnesses and counterexamples. -/

/-- A ready instance with no sessions, observing guild 5. -/
def botA : Bot :=
  { userId := 10, botReady := true, guilds := [5], players := [], hasNode := true }

/-- A second ready instance with no sessions, observing guild 5. -/
def botB : Bot :=
  { userId := 11, botReady := true, guilds := [5], players := [], hasNode := true }

/-- An instance that is not `bot_ready`. -/
def botC : Bot :=
  { userId := 12, botReady := false, guilds := [5], players := [], hasNode := true }

/-- An instance already holding a session in guild 5 at voice channel 100. -/
def botD : Bot :=
  { userId := 13, botReady := true, guilds := [5], players := [(5, ⟨100⟩)],
    hasNode := true }

/-- A two-instance pool with no sessions. -/
def pool0 : List Bot := [botA, botB]

/-- Actor 1 summons through instance 11 from voice channel 100, where
instance 11 is itself present. -/
def reqX : Req :=
  { botUserId := 11, guildId := 5, channelId := 200, authorId := 1,
    authorVoiceCh := 100, channels := [(100, [1, 11])], canConnect := fun _ => true }

/-- Actor 2 summons through instance 10 from voice channel 101; neither
instance is in channel 101, and actor 2 is not in channel 100. -/
def reqY : Req :=
  { botUserId := 10, guildId := 5, channelId := 200, authorId := 2,
    authorVoiceCh := 101, channels := [(100, [1, 11]), (101, [2])],
    canConnect := fun _ => true }

/-- Actor 1 summons through instance 10 from voice channel 100; no instance is
in channel 100, so the eligibility evaluation runs on `pool0` and keeps both
instances. -/
def reqM : Req :=
  { botUserId := 10, guildId := 5, channelId := 200, authorId := 1,
    authorVoiceCh := 100, channels := [(100, [1])], canConnect := fun _ => true }

/-- Actor 3 summons through the non-ready instance 12, the only pool member:
the eligibility evaluation keeps nothing. -/
def reqC : Req :=
  { botUserId := 12, guildId := 5, channelId := 200, authorId := 3,
    authorVoiceCh := 102, channels := [(102, [3])], canConnect := fun _ => true }

/-- Actor 4 summons through instance 13, which already holds a session in
guild 5 at channel 100 that actor 4 is not a member of. -/
def reqD : Req :=
  { botUserId := 13, guildId := 5, channelId := 200, authorId := 4,
    authorVoiceCh := 103, channels := [(103, [4])], canConnect := fun _ => true }

/-! ## Claims -/

/-- Claim C1: an instance is in the candidate set of the eligibility
evaluation if and only if it is a pool member that is ready, observes the
target resource group, and, whenever it already holds an active session in
that group, the requesting actor is a recorded member of that session's
sub-location. -/
theorem freeBots_mem_iff (pool : List Bot) (req : Req) (b : Bot) :
    b ∈ freeBots pool req ↔
      b ∈ pool ∧ b.botReady = true ∧ req.guildId ∈ b.guilds ∧
      ∀ p, b.players.lookup req.guildId = some p →
        req.authorId ∈ channelMembers req.channels p.lastChannelId := by
  rw [freeBots, List.mem_filter]
  rw [eligibleBot]
  cases h : b.players.lookup req.guildId with
  | none => simp [h, and_assoc]
  | some p => simp [h, and_assoc]

/-- Claim C2 counterexample: from the empty-session pool `pool0`, request
`reqX` puts an active session for group 5 on instance 11; the later request
`reqY` for the same group is then not rejected — it starts a second session on
instance 10, leaving two active sessions for group 5 across the pool. -/
theorem two_sessions_in_one_group_reachable :
    sessionCount (summon pool0 reqX .timedOut).2 5 = 1 ∧
    (summon (summon pool0 reqX .timedOut).2 reqY .timedOut).1 =
      .started 10 2 101 200 ∧
    (summon (summon pool0 reqX .timedOut).2 reqY .timedOut).1 ≠
      .alreadyInitiated ∧
    sessionCount (summon (summon pool0 reqX .timedOut).2 reqY .timedOut).2 5 = 2 := by
  decide

/-- Claim C2 (amended): the uniqueness the guard enforces is per instance, not
pool-wide — a claim request is rejected, with the pool unchanged, exactly when
the addressed instance itself already holds an active session in the target
resource group; sessions held by other instances do not cause rejection. -/
theorem summon_rejects_addressed_holding_session (pool : List Bot) (req : Req)
    (sel : SelResult) (ctxBot : Bot)
    (hfind : pool.find? (fun b => b.userId == req.botUserId) = some ctxBot)
    (hheld : (ctxBot.players.lookup req.guildId).isSome = true) :
    summon pool req sel = (.alreadyInitiated, pool) := by
  obtain ⟨p, hp⟩ := Option.isSome_iff_exists.mp hheld
  simp only [summon, hfind, hp]

/-- Witness for `summon_rejects_addressed_holding_session`. -/
theorem summon_rejects_addressed_holding_session_witness :
    summon [botD, botA] reqD .timedOut = (.alreadyInitiated, [botD, botA]) :=
  summon_rejects_addressed_holding_session [botD, botA] reqD .timedOut botD
    (by decide) (by decide)

/-- Claim C3 counterexample: with the pool of the non-ready addressed
instance 12 and the ready instance 10, request `reqC` makes the eligibility
evaluation yield exactly one candidate — instance 10 — yet the session is
created on the addressed instance 12, not on the single eligible candidate:
after the call the only session holder in guild 5 is instance 12. -/
theorem single_candidate_claim_on_other_instance :
    freeBots [botC, botA] reqC = [botA] ∧ botA.userId = 10 ∧
    (summon [botC, botA] reqC .timedOut).1 = .started 12 3 102 200 ∧
    ((summon [botC, botA] reqC .timedOut).2.filter
        (fun b => (b.players.lookup 5).isSome)).map (fun b => b.userId) = [12] := by
  decide

/-- Claim C3 (amended): when the eligibility evaluation runs (the addressed
instance is not in the requester's voice channel) and yields exactly one
candidate, the code proceeds with the addressed instance; provided the
addressed instance is itself eligible, it coincides with that single candidate
and the claim is registered on it: the outcome is a started session owned by
it, and the registry gains the session on it and nowhere else. -/
theorem summon_single_candidate_direct_claim (pool : List Bot) (req : Req)
    (sel : SelResult) (ctxBot b : Bot)
    (hfind : pool.find? (fun x => x.userId == req.botUserId) = some ctxBot)
    (hguard : ctxBot.players.lookup req.guildId = none)
    (hnotin : req.botUserId ∉ channelMembers req.channels req.authorVoiceCh)
    (hself : ctxBot ∈ freeBots pool req)
    (hone : freeBots pool req = [b])
    (hcc : req.canConnect req.authorVoiceCh = true)
    (hnode : b.hasNode = true) :
    summon pool req sel =
      (.started b.userId req.authorId req.authorVoiceCh req.channelId,
       setPlayer pool b.userId req.guildId req.authorVoiceCh) := by
  have hcb : ctxBot = b := by
    rw [hone] at hself
    simpa using hself
  subst hcb
  have hlen : ¬ 1 < (freeBots pool req).length := by
    rw [hone]
    simp
  simp only [summon, hfind, hguard, if_neg hnotin, if_neg hlen, proceed, hcc,
    hnode, if_pos]

/-- Witness for `summon_single_candidate_direct_claim`. -/
theorem summon_single_candidate_direct_claim_witness :
    summon [botA] reqM .timedOut =
      (.started 10 1 100 200, setPlayer [botA] 10 5 100) :=
  summon_single_candidate_direct_claim [botA] reqM .timedOut botA botA
    (by decide) (by decide) (by decide) (by decide) (by decide) (by decide)
    (by decide)

/-- Claim C4 counterexample: with the single non-ready instance 12 addressed by
`reqC`, the eligibility evaluation yields zero candidates, yet the request is
not rejected — `summon` creates a session on the addressed instance. -/
theorem zero_candidates_not_rejected :
    freeBots [botC] reqC = [] ∧
    (summon [botC] reqC .timedOut).1 = .started 12 3 102 200 ∧
    sessionCount (summon [botC] reqC .timedOut).2 5 = 1 := by
  decide

/-- Claim C4 (amended): there is no `NoEligibleInstance` rejection — when the
eligibility evaluation yields zero candidates, the request proceeds with the
addressed instance anyway and (connection permitted, node available) creates
the session on it. -/
theorem summon_zero_candidates_uses_addressed (pool : List Bot) (req : Req)
    (sel : SelResult) (ctxBot : Bot)
    (hfind : pool.find? (fun x => x.userId == req.botUserId) = some ctxBot)
    (hguard : ctxBot.players.lookup req.guildId = none)
    (hnotin : req.botUserId ∉ channelMembers req.channels req.authorVoiceCh)
    (hzero : freeBots pool req = [])
    (hcc : req.canConnect req.authorVoiceCh = true)
    (hnode : ctxBot.hasNode = true) :
    summon pool req sel =
      (.started ctxBot.userId req.authorId req.authorVoiceCh req.channelId,
       setPlayer pool ctxBot.userId req.guildId req.authorVoiceCh) := by
  have hlen : ¬ 1 < (freeBots pool req).length := by
    rw [hzero]
    simp
  simp only [summon, hfind, hguard, if_neg hnotin, if_neg hlen, proceed, hcc,
    hnode, if_pos]

/-- Witness for `summon_zero_candidates_uses_addressed`. -/
theorem summon_zero_candidates_uses_addressed_witness :
    summon [botC] reqC .timedOut =
      (.started 12 3 102 200, setPlayer [botC] 12 5 102) :=
  summon_zero_candidates_uses_addressed [botC] reqC .timedOut botC
    (by decide) (by decide) (by decide) (by decide) (by decide) (by decide)

/-- Claim C5: with more than one candidate the request enters the interactive
selection and the session registry is untouched until the selection reaches a
handoff: every non-handoff resolution (deadline, cancellation, requester gone)
leaves the pool exactly as it was, with no session registered anywhere. -/
theorem summon_multi_candidates_no_registry_mutation (pool : List Bot)
    (req : Req) (ctxBot : Bot)
    (hfind : pool.find? (fun x => x.userId == req.botUserId) = some ctxBot)
    (hguard : ctxBot.players.lookup req.guildId = none)
    (hnotin : req.botUserId ∉ channelMembers req.channels req.authorVoiceCh)
    (hmulti : 1 < (freeBots pool req).length) :
    summon pool req .timedOut = (.timedOutMsg, pool) ∧
    summon pool req .cancelled = (.cancelledMsg, pool) ∧
    ∀ c : SelChosen, c.interAuthorVoiceCh = none →
      summon pool req (.chosen c) = (.notConnectedMsg, pool) := by
  refine ⟨?_, ?_, ?_⟩
  · simp only [summon, hfind, hguard, if_neg hnotin, if_pos hmulti]
  · simp only [summon, hfind, hguard, if_neg hnotin, if_pos hmulti]
  · intro c hc
    simp only [summon, hfind, hguard, if_neg hnotin, if_pos hmulti, hc]

/-- Witness for `summon_multi_candidates_no_registry_mutation`. -/
theorem summon_multi_candidates_no_registry_mutation_witness :
    summon pool0 reqM .timedOut = (.timedOutMsg, pool0) ∧
    summon pool0 reqM .cancelled = (.cancelledMsg, pool0) ∧
    ∀ c : SelChosen, c.interAuthorVoiceCh = none →
      summon pool0 reqM (.chosen c) = (.notConnectedMsg, pool0) :=
  summon_multi_candidates_no_registry_mutation pool0 reqM botA
    (by decide) (by decide) (by decide) (by decide)

/-- Claim C6: when the selection resolves to a choice but the requester no
longer occupies a voice sub-location at resolution time, the request aborts
with the user-visible absence message and the pool is unchanged — no handoff
and no session creation on the chosen instance. -/
theorem summon_chosen_requester_absent_aborts (pool : List Bot) (req : Req)
    (ctxBot : Bot) (c : SelChosen)
    (hfind : pool.find? (fun x => x.userId == req.botUserId) = some ctxBot)
    (hguard : ctxBot.players.lookup req.guildId = none)
    (hnotin : req.botUserId ∉ channelMembers req.channels req.authorVoiceCh)
    (hmulti : 1 < (freeBots pool req).length)
    (hnovoice : c.interAuthorVoiceCh = none) :
    summon pool req (.chosen c) = (.notConnectedMsg, pool) := by
  simp only [summon, hfind, hguard, if_neg hnotin, if_pos hmulti, hnovoice]

/-- Witness for `summon_chosen_requester_absent_aborts`. -/
theorem summon_chosen_requester_absent_aborts_witness :
    summon pool0 reqM (.chosen ⟨11, 1, none, 200⟩) = (.notConnectedMsg, pool0) :=
  summon_chosen_requester_absent_aborts pool0 reqM botA ⟨11, 1, none, 200⟩
    (by decide) (by decide) (by decide) (by decide) (by decide)

/-- Claim C7: a selection that ends by deadline expiry or by cancellation
completes with the corresponding user-visible message, the pool unchanged and
no session created, and neither outcome is an exception. -/
theorem summon_timeout_cancel_surfaced_normally (pool : List Bot) (req : Req)
    (ctxBot : Bot)
    (hfind : pool.find? (fun x => x.userId == req.botUserId) = some ctxBot)
    (hguard : ctxBot.players.lookup req.guildId = none)
    (hnotin : req.botUserId ∉ channelMembers req.channels req.authorVoiceCh)
    (hmulti : 1 < (freeBots pool req).length) :
    summon pool req .timedOut = (.timedOutMsg, pool) ∧
    summon pool req .cancelled = (.cancelledMsg, pool) ∧
    SummonOutcome.isException .timedOutMsg = false ∧
    SummonOutcome.isException .cancelledMsg = false := by
  refine ⟨?_, ?_, rfl, rfl⟩
  · simp only [summon, hfind, hguard, if_neg hnotin, if_pos hmulti]
  · simp only [summon, hfind, hguard, if_neg hnotin, if_pos hmulti]

/-- Witness for `summon_timeout_cancel_surfaced_normally`. -/
theorem summon_timeout_cancel_surfaced_normally_witness :
    summon pool0 reqM .timedOut = (.timedOutMsg, pool0) ∧
    summon pool0 reqM .cancelled = (.cancelledMsg, pool0) ∧
    SummonOutcome.isException .timedOutMsg = false ∧
    SummonOutcome.isException .cancelledMsg = false :=
  summon_timeout_cancel_surfaced_normally pool0 reqM botA
    (by decide) (by decide) (by decide) (by decide)

/-- Claim C8 counterexample: an arbitration that meets the registry's
already-claimed condition (the addressed instance 13 already holds the session
for group 5) performs no retry and no candidate re-evaluation — although a
re-evaluation would find the free candidate instance 10, the outcome is the
already-claimed error, surfaced to the requester as an exception. -/
theorem already_claimed_no_retry :
    summon [botD, botA] reqD .cancelled = (.alreadyInitiated, [botD, botA]) ∧
    SummonOutcome.isException .alreadyInitiated = true ∧
    freeBots [botD, botA] reqD = [botA] := by
  decide

/-- Claim C8 (amended): the arbiter attempts registration at most once per
request — when the addressed instance's registry already holds a session for
the group, the request fails immediately with an exception-class outcome, and
the selection machinery is never consulted (the result is the same whatever
the selection would have resolved to). -/
theorem summon_already_claimed_single_attempt (pool : List Bot) (req : Req)
    (sel sel2 : SelResult) (ctxBot : Bot)
    (hfind : pool.find? (fun b => b.userId == req.botUserId) = some ctxBot)
    (hheld : (ctxBot.players.lookup req.guildId).isSome = true) :
    (summon pool req sel).1.isException = true ∧
    summon pool req sel = summon pool req sel2 := by
  obtain ⟨p, hp⟩ := Option.isSome_iff_exists.mp hheld
  constructor
  · simp only [summon, hfind, hp]
    rfl
  · simp only [summon, hfind, hp]

/-- Witness for `summon_already_claimed_single_attempt`. -/
theorem summon_already_claimed_single_attempt_witness :
    (summon [botD, botA] reqD .cancelled).1.isException = true ∧
    summon [botD, botA] reqD .cancelled = summon [botD, botA] reqD .timedOut :=
  summon_already_claimed_single_attempt [botD, botA] reqD .cancelled .timedOut
    botD (by decide) (by decide)

/-- Claim C9: a handoff after a `Chosen` resolution obeying the
`SelectBotVoice` contract preserves the requesting actor and the reply channel
across the instance switch — the session is registered on the chosen instance,
created for the original requester at the requester's voice sub-location at
resolution time, and feedback flows through the chosen instance in the
originating reply channel. -/
theorem summon_chosen_handoff_preserves_context (pool : List Bot) (req : Req)
    (c : SelChosen) (ctxBot b2 : Bot) (vc : Nat)
    (hfind : pool.find? (fun x => x.userId == req.botUserId) = some ctxBot)
    (hguard : ctxBot.players.lookup req.guildId = none)
    (hnotin : req.botUserId ∉ channelMembers req.channels req.authorVoiceCh)
    (hmulti : 1 < (freeBots pool req).length)
    (hres : SelResolutionOk req (freeBots pool req) c)
    (hvc : c.interAuthorVoiceCh = some vc)
    (hfind2 : pool.find? (fun x => x.userId == c.chosenUid) = some b2)
    (hcc : req.canConnect vc = true)
    (hnode : b2.hasNode = true) :
    summon pool req (.chosen c) =
      (.started b2.userId req.authorId vc req.channelId,
       setPlayer pool b2.userId req.guildId vc) := by
  obtain ⟨hauthor, hchannel, -⟩ := hres
  simp only [summon, hfind, hguard, if_neg hnotin, if_pos hmulti, hvc, hfind2,
    proceed, hcc, hnode, if_pos, hauthor, hchannel]

/-- Witness for `summon_chosen_handoff_preserves_context`. -/
theorem summon_chosen_handoff_preserves_context_witness :
    summon pool0 reqM (.chosen ⟨11, 1, some 100, 200⟩) =
      (.started 11 1 100 200, setPlayer pool0 11 5 100) :=
  summon_chosen_handoff_preserves_context pool0 reqM ⟨11, 1, some 100, 200⟩
    botA botB 100 (by decide) (by decide) (by decide) (by decide)
    ⟨rfl, rfl, botB, by decide, rfl⟩ (by decide) (by decide) (by decide)
    (by decide)

/-- Claim C10: when the addressed instance is already connected to the
requester's voice sub-location, the request bypasses the eligibility
evaluation and the interactive selection entirely — the outcome is the direct
continuation with that instance, and is the same whatever the selection would
have resolved to. -/
theorem summon_addressed_in_channel_bypasses (pool : List Bot) (req : Req)
    (sel sel2 : SelResult) (ctxBot : Bot)
    (hfind : pool.find? (fun x => x.userId == req.botUserId) = some ctxBot)
    (hguard : ctxBot.players.lookup req.guildId = none)
    (hin : req.botUserId ∈ channelMembers req.channels req.authorVoiceCh) :
    summon pool req sel =
      proceed pool ctxBot req.guildId req.authorId req.authorVoiceCh
        req.channelId req.canConnect ∧
    summon pool req sel = summon pool req sel2 := by
  constructor
  · simp only [summon, hfind, hguard, if_pos hin]
  · simp only [summon, hfind, hguard, if_pos hin]

/-- Witness for `summon_addressed_in_channel_bypasses`. -/
theorem summon_addressed_in_channel_bypasses_witness :
    summon pool0 reqX .timedOut =
      proceed pool0 botB 5 1 100 200 reqX.canConnect ∧
    summon pool0 reqX .timedOut = summon pool0 reqX .cancelled :=
  summon_addressed_in_channel_bypasses pool0 reqX .timedOut .cancelled botB
    (by decide) (by decide) (by decide)

end MetMusic
